import Mathlib

/-!
Shallow embedding of the event-to-work translation and conflict-safe
mutation core of the tikv-operator controller package
(`pkg/controller/util.go`), together with the collaborator functions it
calls (`k8s.io/client-go` key functions and retry loop,
`k8s.io/apimachinery` group-version parsing and controller-reference
lookup, `sigs.k8s.io/controller-runtime` object keys).
-/

namespace TikvOperator

/-- Errors returned by the store client and collaborators.  `conflict`
stands for a Kubernetes StatusError with reason Conflict (the value
recognised by `apierrors.IsConflict`), `notFound` for reason NotFound
(recognised by `apierrors.IsNotFound`); `other` is any other error,
carrying its message. -/
inductive Err where
  | conflict
  | notFound
  | other (msg : String)
deriving DecidableEq

/-- Embeds `apierrors.IsConflict`: true exactly on conflict-classified errors. -/
def IsConflict : Err → Bool
  | .conflict => true
  | _ => false

/-- Embeds `apierrors.IsNotFound`: true exactly on not-found-classified errors. -/
def IsNotFound : Err → Bool
  | .notFound => true
  | _ => false

/-! ## Error classifier (`RequeueError` / `IgnoreError`)

Go error values relevant to the classifier: a `*RequeueError`, an
`*IgnoreError`, or a plain error built with `fmt.Errorf`.  Each carries
the string produced by `fmt.Sprintf(format, a...)`; the formatted result
is modelled as the carried string. -/

inductive GoError where
  | requeueError (s : String)
  | ignoreError (s : String)
  | plainError (s : String)
deriving DecidableEq

/-- The `Error()` method: returns the stored message in every case. -/
def GoError.Error : GoError → String
  | .requeueError s => s
  | .ignoreError s => s
  | .plainError s => s

/-- Builds a `*RequeueError` holding the formatted string. -/
def RequeueErrorf (s : String) : GoError := .requeueError s

/-- Builds an `*IgnoreError` holding the formatted string. -/
def IgnoreErrorf (s : String) : GoError := .ignoreError s

/-- Embeds `fmt.Errorf`: a plain error holding the formatted string. -/
def Errorf (s : String) : GoError := .plainError s

/-- True when the type assertion `err.(*RequeueError)` succeeds. -/
def IsRequeueError : GoError → Bool
  | .requeueError _ => true
  | _ => false

/-- True when the type assertion `err.(*IgnoreError)` succeeds. -/
def IsIgnoreError : GoError → Bool
  | .ignoreError _ => true
  | _ => false

/-! ## GuaranteedUpdate

`GuaranteedUpdate(cli, obj, updateFunc)` derives the object key, then runs
`retry.RetryOnConflict(retry.DefaultRetry, ...)` around a fetch / deep-copy
snapshot / mutate / semantic-deep-equal compare / write cycle.

The store client is modelled as two oracles indexed by call count: `get n`
is the result of the `(n+1)`-th `cli.Get` call (the value written into
`obj`), `update n v` the result of the `(n+1)`-th `cli.Update` call when
called with object value `v` (`none` = nil error).  `updateFunc` closes
over `obj`, so it is modelled as taking the fetched value and returning
the mutated one.  `apiequality.Semantic.DeepEqual` is structural equality
on the object type.  The embedding returns the final error together with
the number of `Get` and `Update` calls performed. -/

/-- Embeds `client.ObjectKey` (a `types.NamespacedName`). -/
structure ObjectKey where
  ns : String
  name : String
deriving DecidableEq

/-- The store client: results of successive Get and Update calls. -/
structure Client (α : Type) where
  get : Nat → Except Err α
  update : Nat → α → Option Err

/-- One body execution of the closure passed to `RetryOnConflict`, at get
count `g` and update count `u`: fetch, snapshot, mutate, compare, write.
Returns the closure's error result and the new call counts. -/
def attemptOnce {α : Type} [DecidableEq α] (cli : Client α)
    (updateFunc : α → Except Err α) (g u : Nat) : Option Err × Nat × Nat :=
  match cli.get g with
  | .error e => (some e, g + 1, u)
  | .ok fetched =>
    let beforeMutation := fetched
    match updateFunc fetched with
    | .error e => (some e, g + 1, u)
    | .ok mutated =>
      if mutated = beforeMutation then (none, g + 1, u)
      else (cli.update u mutated, g + 1, u + 1)

/-- Embeds `retry.OnError` specialised to `errors.IsConflict`
(`retry.RetryOnConflict`): run the closure up to `steps` times
(`wait.ExponentialBackoff` invokes the condition once per remaining step);
stop on success or on a non-conflict error; on a conflict remember it and
retry; when the steps are exhausted the timeout is replaced by the last
conflict error. -/
def retryOnConflict {α : Type} [DecidableEq α] (cli : Client α)
    (updateFunc : α → Except Err α) :
    Nat → Option Err → Nat → Nat → Option Err × Nat × Nat
  | 0, lastErr, g, u => (lastErr, g, u)
  | steps + 1, _, g, u =>
    match attemptOnce cli updateFunc g u with
    | (none, g', u') => (none, g', u')
    | (some e, g', u') =>
      if IsConflict e then retryOnConflict cli updateFunc steps (some e) g' u'
      else (some e, g', u')

/-- The step bound `retry.DefaultRetry.Steps`. -/
def defaultRetrySteps : Nat := 5

/-- Embeds `GuaranteedUpdate`: derive the key with `client.ObjectKeyFromObject`
(modelled by `keyOf`, which may fail when the object has no metadata
accessor), then run the retry loop.  Returns the error result and the
(Get count, Update count) pair. -/
def GuaranteedUpdate {α : Type} [DecidableEq α] (cli : Client α)
    (keyOf : α → Except Err ObjectKey) (obj : α)
    (updateFunc : α → Except Err α) : Option Err × Nat × Nat :=
  match keyOf obj with
  | .error e => (some e, 0, 0)
  | .ok _ => retryOnConflict cli updateFunc defaultRetrySteps none 0 0

/-! ## Object model for the event routers

Event payloads delivered by the informer are `interface{}` values.  The
cases that matter to `WatchForObject` / `WatchForController` are: a real
API object (implements `metav1.Object`, carries ObjectMeta), a
`cache.DeletedFinalStateUnknown` tombstone (carries only a cached key),
and anything else (fails the `metav1.Object` type assertion and has no
metadata accessor). -/

/-- Embeds `metav1.OwnerReference`. -/
structure OwnerReference where
  apiVersion : String
  kind : String
  name : String
  uid : String
  controller : Option Bool
  blockOwnerDeletion : Option Bool
deriving DecidableEq

/-- The identity-bearing part of `metav1.ObjectMeta`. `ns` is the
`Namespace` field ("" for cluster-scoped objects), `resourceVersion`
stands in for the remaining non-identity fields. -/
structure ObjectMeta where
  ns : String
  name : String
  labels : List (String × String)
  ownerReferences : List OwnerReference
  resourceVersion : String
deriving DecidableEq

/-- An informer event payload. -/
inductive Payload where
  | object (meta : ObjectMeta)
  | deletedFinalStateUnknown (key : String)
  | nonObject (desc : String)
deriving DecidableEq

/-- Embeds `meta.Accessor` and the `obj.(metav1.Object)` type assertion: succeeds
exactly on real API objects. -/
def Payload.accessor : Payload → Option ObjectMeta
  | .object m => some m
  | _ => none

/-- Embeds `cache.MetaNamespaceKeyFunc`: `"<namespace>/<name>"`, or `"<name>"`
for cluster-scoped objects; errors when the metadata accessor fails. -/
def MetaNamespaceKeyFunc (p : Payload) : Except Err String :=
  match p.accessor with
  | none => .error (.other "object has no meta")
  | some m => if m.ns ≠ "" then .ok (m.ns ++ "/" ++ m.name) else .ok m.name

/-- Embeds `cache.DeletionHandlingMetaNamespaceKeyFunc`: a
`DeletedFinalStateUnknown` tombstone yields its cached key; everything
else goes through `MetaNamespaceKeyFunc`. -/
def DeletionHandlingMetaNamespaceKeyFunc (p : Payload) : Except Err String :=
  match p with
  | .deletedFinalStateUnknown k => .ok k
  | _ => MetaNamespaceKeyFunc p

/-- Embeds `metav1.GetControllerOf`: the first owner reference whose
`Controller` field is non-nil and true, if any. -/
def GetControllerOf (m : ObjectMeta) : Option OwnerReference :=
  m.ownerReferences.find? (fun r => r.controller == some true)

/-- Embeds `schema.GroupVersion`. -/
structure GroupVersion where
  group : String
  version : String
deriving DecidableEq

/-- Embeds `schema.ParseGroupVersion`: "" and "/" parse to the empty
GroupVersion; by the count of "/" (`strings.Count`), zero slashes means a
bare version, one slash splits at its index (`strings.Index`) into
group/version, and more slashes are an error. -/
def ParseGroupVersion (gv : String) : Except Err GroupVersion :=
  if gv = "" ∨ gv = "/" then .ok ⟨"", ""⟩
  else
    let cs := gv.toList
    match (cs.filter (· = '/')).length with
    | 0 => .ok ⟨"", gv⟩
    | 1 => .ok ⟨(cs.takeWhile (· ≠ '/')).asString,
                ((cs.dropWhile (· ≠ '/')).drop 1).asString⟩
    | _ => .error (.other ("unexpected GroupVersion string: " ++ gv))

/-- Embeds `schema.GroupVersionKind`. -/
structure GroupVersionKind where
  group : String
  version : String
  kind : String
deriving DecidableEq

/-- A `runtime.Object` as returned by a `GetControllerFn`: its
`GetObjectKind().GroupVersionKind()` plus its ObjectMeta. -/
structure RuntimeObject where
  gvk : GroupVersionKind
  meta : ObjectMeta
deriving DecidableEq

/-- Embeds `GetControllerFn`: keyed lookup `(ns, name) -> (object, error)`. -/
def GetControllerFn : Type := String → String → Except Err RuntimeObject

/-- Modelled from the spec: `util.IsSubMapOf` lives in `pkg/util`, which
is not among the available sources.  Per the spec (§4.3), "the event
object's labels must be a superset of the filter (exact key/value match
for every required pair)": every pair of the filter `m` must appear in
the label map `l`. -/
def IsSubMapOf (m l : List (String × String)) : Bool :=
  m.all (fun kv => l.lookup kv.1 == some kv.2)

/-! ## Event routers

A handler invocation is modelled by its observable effects: the list of
keys passed to `q.Add` and the list of messages passed to
`utilruntime.HandleError` (the side-channel error reporter).  Events
dropped silently (filter mismatch, no controller, not-found lookup,
kind/group mismatch) produce neither. -/

/-- The `enqueueFn` closure of `WatchForObject`: derive the object's own
key (tombstone-tolerant) and enqueue it; on failure report through the
error handler and drop the event. -/
def watchForObjectEnqueue (p : Payload) : List String × List String :=
  match DeletionHandlingMetaNamespaceKeyFunc p with
  | .error _ => ([], ["could not get key for object"])
  | .ok key => ([key], [])

/-- The tail of `WatchForController`'s `enqueueFn` after the label filter
(lines 366-396 of `util.go`): resolve the controlling reference, parse
its group/version, look the controller up, check kind and group, derive
its key and enqueue it. -/
def resolveAndEnqueue (fn : GetControllerFn) (meta : ObjectMeta) :
    List String × List String :=
  match GetControllerOf meta with
  | none => ([], [])
  | some ref =>
    match ParseGroupVersion ref.apiVersion with
    | .error _ => ([], ["cannot parse group version for the controller"])
    | .ok refGV =>
      match fn meta.ns ref.name with
      | .error e =>
        -- not-found is only logged at low verbosity, not HandleError
        if IsNotFound e then ([], [])
        else ([], ["cannot get controller"])
      | .ok controllerObj =>
        if ref.kind = controllerObj.gvk.kind ∧
            refGV.group = controllerObj.gvk.group then
          match DeletionHandlingMetaNamespaceKeyFunc
              (.object controllerObj.meta) with
          | .error _ => ([], ["could not get key for object"])
          | .ok key => ([key], [])
        else ([], [])

/-- The `enqueueFn` closure of `WatchForController`: assert
`metav1.Object`, apply the optional label filter, then resolve and
enqueue the controller's key. -/
def watchForControllerEnqueue (fn : GetControllerFn)
    (m : Option (List (String × String))) (p : Payload) :
    List String × List String :=
  match p.accessor with
  | none => ([], ["not a runtime.Object, cannot get controller from it"])
  | some meta =>
    if (match m with
        | some filter => !IsSubMapOf filter meta.labels
        | none => false) then ([], [])
    else resolveAndEnqueue fn meta

/-- An informer event. -/
inductive Event where
  | add (obj : Payload)
  | update (old cur : Payload)
  | delete (obj : Payload)
deriving DecidableEq

/-- The object an event is about: for updates, the current (new) object. -/
def Event.current : Event → Payload
  | .add o => o
  | .update _ cur => cur
  | .delete o => o

/-- Embeds `cache.ResourceEventHandlerFuncs` with observable-effect handlers. -/
structure ResourceEventHandlerFuncs where
  AddFunc : Payload → List String × List String
  UpdateFunc : Payload → Payload → List String × List String
  DeleteFunc : Payload → List String × List String

/-- Informer dispatch of one event to the registered handler. -/
def handleEvent (h : ResourceEventHandlerFuncs) : Event → List String × List String
  | .add o => h.AddFunc o
  | .update old cur => h.UpdateFunc old cur
  | .delete o => h.DeleteFunc o

/-- The handler `WatchForObject` registers: add, update (new object only)
and delete all go through `enqueueFn`. -/
def WatchForObjectHandler : ResourceEventHandlerFuncs where
  AddFunc := watchForObjectEnqueue
  UpdateFunc := fun _ cur => watchForObjectEnqueue cur
  DeleteFunc := watchForObjectEnqueue

/-- The handler `WatchForController` registers: add, update (new object
only) and delete all go through its `enqueueFn`. -/
def WatchForControllerHandler (fn : GetControllerFn)
    (m : Option (List (String × String))) : ResourceEventHandlerFuncs where
  AddFunc := watchForControllerEnqueue fn m
  UpdateFunc := fun _ cur => watchForControllerEnqueue fn m cur
  DeleteFunc := watchForControllerEnqueue fn m

/-! ## Concrete fixtures

Small concrete clients, mutation functions and objects used to evaluate
the definitions on explicit inputs. -/

/-- Key derivation that always succeeds (object with metadata). -/
def natKeyOf : Nat → Except Err ObjectKey := fun _ => .ok ⟨"ns", "obj"⟩

/-- Key derivation that fails (object without a metadata accessor). -/
def badKeyOf : Nat → Except Err ObjectKey :=
  fun _ => .error (.other "no accessor")

/-- A mutation that changes the object. -/
def incFn : Nat → Except Err Nat := fun x => .ok (x + 1)

/-- A mutation that leaves the object unchanged. -/
def idFn : Nat → Except Err Nat := fun x => .ok x

/-- A mutation failing with a conflict-classified error. -/
def mutateConflict : Nat → Except Err Nat := fun _ => .error .conflict

/-- A mutation failing with an ordinary error. -/
def mutateBoom : Nat → Except Err Nat := fun _ => .error (.other "mboom")

/-- A store where fetches and writes always succeed. -/
def cliNoop : Client Nat := ⟨fun _ => .ok 0, fun _ _ => none⟩

/-- A store where every write reports a version conflict. -/
def cliAllConflict : Client Nat := ⟨fun _ => .ok 0, fun _ _ => some .conflict⟩

/-- A store where the first write conflicts and later writes succeed. -/
def cliConflictOnce : Client Nat :=
  ⟨fun _ => .ok 0, fun n _ => if n = 0 then some .conflict else none⟩

/-- A store where every write fails with an ordinary error. -/
def cliWriteBoom : Client Nat :=
  ⟨fun _ => .ok 0, fun _ _ => some (.other "boom")⟩

/-- A store where every fetch fails with a conflict-classified error. -/
def cliGetConflict : Client Nat :=
  ⟨fun _ => .error .conflict, fun _ _ => none⟩

/-- A store where the first fetch fails with an ordinary error. -/
def cliGetBoom : Client Nat :=
  ⟨fun n => if n = 0 then .error (.other "boom") else .ok 0, fun _ _ => none⟩

/-- A label filter requiring `app=tikv`. -/
def fltr : List (String × String) := [("app", "tikv")]

/-- A controlling reference to a TikvCluster named `parent`. -/
def tikvRef : OwnerReference :=
  ⟨"tikv.org/v1alpha1", "TikvCluster", "parent", "uid1", some true, some true⟩

/-- A child object with matching labels and a controlling reference. -/
def metaChild : ObjectMeta :=
  ⟨"ns", "child", [("app", "tikv"), ("x", "y")], [tikvRef], "1"⟩

/-- The same identity as `metaChild` with all other fields different. -/
def metaChildAlt : ObjectMeta := ⟨"ns", "child", [], [], "99"⟩

/-- A child object carrying no labels. -/
def metaNoLabel : ObjectMeta := ⟨"ns", "nolabel", [], [tikvRef], "1"⟩

/-- The parent TikvCluster's metadata. -/
def metaParent : ObjectMeta := ⟨"ns", "parent", [], [], "7"⟩

/-- The parent as a fetched runtime object of the right kind/group. -/
def tcObject : RuntimeObject :=
  ⟨⟨"tikv.org", "v1alpha1", "TikvCluster"⟩, metaParent⟩

/-- A lookup resolving every (ns, name) to the parent TikvCluster. -/
def fnTikv : GetControllerFn := fun _ _ => .ok tcObject

/-- A lookup resolving to an object of a different kind with the same
name as the reference. -/
def fnWrongKind : GetControllerFn :=
  fun _ _ => .ok ⟨⟨"apps", "v1", "StatefulSet"⟩, metaParent⟩

/-! ## Helper lemmas -/

theorem attemptOnce_get_error {α : Type} [DecidableEq α] (cli : Client α)
    (f : α → Except Err α) {g u : Nat} {e : Err}
    (hg : cli.get g = .error e) :
    attemptOnce cli f g u = (some e, g + 1, u) := by
  simp [attemptOnce, hg]

theorem attemptOnce_mutate_error {α : Type} [DecidableEq α] (cli : Client α)
    (f : α → Except Err α) {g u : Nat} {a : α} {e : Err}
    (hg : cli.get g = .ok a) (hf : f a = .error e) :
    attemptOnce cli f g u = (some e, g + 1, u) := by
  simp [attemptOnce, hg, hf]

theorem attemptOnce_no_change {α : Type} [DecidableEq α] (cli : Client α)
    (f : α → Except Err α) {g u : Nat} {a : α}
    (hg : cli.get g = .ok a) (hf : f a = .ok a) :
    attemptOnce cli f g u = (none, g + 1, u) := by
  simp [attemptOnce, hg, hf]

theorem attemptOnce_write {α : Type} [DecidableEq α] (cli : Client α)
    (f : α → Except Err α) {g u : Nat} {a b : α}
    (hg : cli.get g = .ok a) (hf : f a = .ok b) (hne : b ≠ a) :
    attemptOnce cli f g u = (cli.update u b, g + 1, u + 1) := by
  simp [attemptOnce, hg, hf, hne]

theorem retryOnConflict_zero {α : Type} [DecidableEq α] (cli : Client α)
    (f : α → Except Err α) (lastErr : Option Err) (g u : Nat) :
    retryOnConflict cli f 0 lastErr g u = (lastErr, g, u) := rfl

theorem retryOnConflict_succ {α : Type} [DecidableEq α] (cli : Client α)
    (f : α → Except Err α) (steps : Nat) (lastErr : Option Err) (g u : Nat) :
    retryOnConflict cli f (steps + 1) lastErr g u =
      match attemptOnce cli f g u with
      | (none, g', u') => (none, g', u')
      | (some e, g', u') =>
        if IsConflict e then retryOnConflict cli f steps (some e) g' u'
        else (some e, g', u') := rfl

theorem retryOnConflict_step_success {α : Type} [DecidableEq α]
    (cli : Client α) (f : α → Except Err α) {steps g u g' u' : Nat}
    {lastErr : Option Err}
    (hA : attemptOnce cli f g u = (none, g', u')) :
    retryOnConflict cli f (steps + 1) lastErr g u = (none, g', u') := by
  rw [retryOnConflict_succ, hA]

theorem retryOnConflict_step_conflict {α : Type} [DecidableEq α]
    (cli : Client α) (f : α → Except Err α) {steps g u g' u' : Nat}
    {lastErr : Option Err}
    (hA : attemptOnce cli f g u = (some Err.conflict, g', u')) :
    retryOnConflict cli f (steps + 1) lastErr g u =
      retryOnConflict cli f steps (some Err.conflict) g' u' := by
  rw [retryOnConflict_succ, hA]
  rfl

theorem retryOnConflict_step_abort {α : Type} [DecidableEq α]
    (cli : Client α) (f : α → Except Err α) {steps g u g' u' : Nat}
    {lastErr : Option Err} {e : Err}
    (hA : attemptOnce cli f g u = (some e, g', u'))
    (hnc : IsConflict e = false) :
    retryOnConflict cli f (steps + 1) lastErr g u = (some e, g', u') := by
  rw [retryOnConflict_succ, hA]
  simp [hnc]

theorem retryOnConflict_all_conflict {α : Type} [DecidableEq α]
    (cli : Client α) (f : α → Except Err α)
    (H : ∀ n, attemptOnce cli f n n = (some Err.conflict, n + 1, n + 1)) :
    ∀ steps n lastErr, retryOnConflict cli f (steps + 1) lastErr n n =
      (some Err.conflict, n + steps + 1, n + steps + 1) := by
  intro steps
  induction steps with
  | zero =>
    intro n lastErr
    rw [retryOnConflict_step_conflict cli f (H n), retryOnConflict_zero]
  | succ s ih =>
    intro n lastErr
    rw [retryOnConflict_step_conflict cli f (H n), ih (n + 1) (some .conflict)]
    have h : n + 1 + s + 1 = n + (s + 1) + 1 := by omega
    rw [h]

/-- C1: when the fetch succeeds and `mutateFn` succeeds but leaves the
object structurally equal to the snapshot taken right after the fetch,
`GuaranteedUpdate` returns success (nil error) after a single fetch and
without ever calling the store client's Update. -/
theorem guaranteedUpdate_unchanged_skips_write {α : Type} [DecidableEq α]
    (cli : Client α) (keyOf : α → Except Err ObjectKey) (obj : α)
    (updateFunc : α → Except Err α) (k : ObjectKey) (a : α)
    (hk : keyOf obj = .ok k) (hg : cli.get 0 = .ok a)
    (hu : updateFunc a = .ok a) :
    GuaranteedUpdate cli keyOf obj updateFunc = (none, 1, 0) := by
  unfold GuaranteedUpdate
  rw [hk]
  show retryOnConflict cli updateFunc (4 + 1) none 0 0 = (none, 1, 0)
  rw [retryOnConflict_step_success cli updateFunc
    (attemptOnce_no_change cli updateFunc hg hu)]

/-- Witness for C1 at a concrete client and identity mutation. -/
theorem guaranteedUpdate_unchanged_skips_write_witness :
    GuaranteedUpdate cliNoop natKeyOf 0 idFn = (none, 1, 0) :=
  guaranteedUpdate_unchanged_skips_write cliNoop natKeyOf 0 idFn
    ⟨"ns", "obj"⟩ 0 rfl rfl rfl

/-- C2 counterexample: against a client whose fetch fails with a
conflict-classified error, the cycle is re-attempted — five fetches —
although no write ever occurred, so the cycle is not re-attempted "only
when the store's write reports a version-conflict failure":
`retry.RetryOnConflict` retries on any conflict-classified error, from
whichever call it came. -/
theorem guaranteedUpdate_refetches_without_write_conflict :
    GuaranteedUpdate cliGetConflict natKeyOf 0 incFn
        = (some Err.conflict, 5, 0)
    ∧ ¬((GuaranteedUpdate cliGetConflict natKeyOf 0 incFn).2.2 = 0 →
        (GuaranteedUpdate cliGetConflict natKeyOf 0 incFn).2.1 ≤ 1) := by
  decide

/-- C2 (amended): the fetch-mutate-write cycle is re-attempted only when
an operation returns an error classified as a version conflict (on the
intended path, the write; a conflict-classified fetch or mutate error
also retries); each retry begins with a fresh fetch; attempts are bounded
by the fixed constant 5; if all 5 attempts end in a write conflict, the
conflict surfaces as the returned error; a conflict on the first write
followed by a clean second cycle returns success after exactly two
fetch+write cycles; a non-conflict write error aborts after one cycle. -/
theorem guaranteedUpdate_conflict_retry_behavior {α : Type}
    [DecidableEq α] (cli : Client α) (keyOf : α → Except Err ObjectKey)
    (obj : α) (f : α → Except Err α) (k : ObjectKey) (a b : Nat → α)
    (hk : keyOf obj = .ok k) :
    ((∀ n, cli.get n = .ok (a n)) → (∀ n, f (a n) = .ok (b n)) →
     (∀ n, b n ≠ a n) → (∀ n, cli.update n (b n) = some Err.conflict) →
       GuaranteedUpdate cli keyOf obj f = (some Err.conflict, 5, 5))
  ∧ (cli.get 0 = .ok (a 0) → f (a 0) = .ok (b 0) → b 0 ≠ a 0 →
     cli.update 0 (b 0) = some Err.conflict →
     cli.get 1 = .ok (a 1) → f (a 1) = .ok (b 1) → b 1 ≠ a 1 →
     cli.update 1 (b 1) = none →
       GuaranteedUpdate cli keyOf obj f = (none, 2, 2))
  ∧ (∀ e, cli.get 0 = .ok (a 0) → f (a 0) = .ok (b 0) → b 0 ≠ a 0 →
     cli.update 0 (b 0) = some e → IsConflict e = false →
       GuaranteedUpdate cli keyOf obj f = (some e, 1, 1)) := by
  refine ⟨?_, ?_, ?_⟩
  · intro h1 h2 h3 h4
    unfold GuaranteedUpdate
    rw [hk]
    have H : ∀ n, attemptOnce cli f n n =
        (some Err.conflict, n + 1, n + 1) := by
      intro n
      rw [attemptOnce_write cli f (h1 n) (h2 n) (h3 n), h4 n]
    show retryOnConflict cli f (4 + 1) none 0 0 = (some Err.conflict, 5, 5)
    rw [retryOnConflict_all_conflict cli f H 4 0 none]
  · intro hg0 hf0 hne0 hu0 hg1 hf1 hne1 hu1
    unfold GuaranteedUpdate
    rw [hk]
    show retryOnConflict cli f (4 + 1) none 0 0 = (none, 2, 2)
    rw [retryOnConflict_step_conflict cli f
      (by rw [attemptOnce_write cli f hg0 hf0 hne0, hu0])]
    show retryOnConflict cli f (3 + 1) (some .conflict) 1 1 = (none, 2, 2)
    rw [retryOnConflict_step_success cli f
      (by rw [attemptOnce_write cli f hg1 hf1 hne1, hu1])]
  · intro e hg0 hf0 hne0 hu0 hnc
    unfold GuaranteedUpdate
    rw [hk]
    show retryOnConflict cli f (4 + 1) none 0 0 = (some e, 1, 1)
    rw [retryOnConflict_step_abort cli f
      (by rw [attemptOnce_write cli f hg0 hf0 hne0, hu0]) hnc]

/-- Witness for the amended C2 at three concrete stores: all writes
conflicting, first write conflicting then clean, and a non-conflict
write failure. -/
theorem guaranteedUpdate_conflict_retry_behavior_witness :
    GuaranteedUpdate cliAllConflict natKeyOf 0 incFn
        = (some Err.conflict, 5, 5)
    ∧ GuaranteedUpdate cliConflictOnce natKeyOf 0 incFn = (none, 2, 2)
    ∧ GuaranteedUpdate cliWriteBoom natKeyOf 0 incFn
        = (some (Err.other "boom"), 1, 1) :=
  ⟨(guaranteedUpdate_conflict_retry_behavior cliAllConflict natKeyOf 0
      incFn ⟨"ns", "obj"⟩ (fun _ => 0) (fun _ => 1) rfl).1
      (fun _ => rfl) (fun _ => rfl) (fun _ => by decide) (fun _ => rfl),
   (guaranteedUpdate_conflict_retry_behavior cliConflictOnce natKeyOf 0
      incFn ⟨"ns", "obj"⟩ (fun _ => 0) (fun _ => 1) rfl).2.1
      rfl rfl (by decide) rfl rfl rfl (by decide) rfl,
   (guaranteedUpdate_conflict_retry_behavior cliWriteBoom natKeyOf 0
      incFn ⟨"ns", "obj"⟩ (fun _ => 0) (fun _ => 1) rfl).2.2
      (Err.other "boom") rfl rfl (by decide) rfl rfl⟩

/-- C3 counterexample: a `mutateFn` failing with a conflict-classified
error is not propagated immediately — the code runs four further
fetch-mutate cycles (five fetches in all), contradicting "propagated
without a further fetch-mutate cycle". -/
theorem guaranteedUpdate_mutate_conflict_recycles :
    GuaranteedUpdate cliNoop natKeyOf 0 mutateConflict
        = (some Err.conflict, 5, 0)
    ∧ ¬((GuaranteedUpdate cliNoop natKeyOf 0 mutateConflict).2.1 = 1) := by
  decide

/-- C3 (amended): any failure not classified as a version conflict
aborts immediately without retry: a key-derivation error is returned
before any fetch; a non-conflict fetch error is returned after a single
fetch, without retrying and without a write; a non-conflict `mutateFn`
error is propagated after a single fetch, without a write and without a
further fetch-mutate cycle.  (An error classified as a version conflict
triggers a retry regardless of which step produced it.) -/
theorem guaranteedUpdate_nonconflict_aborts {α : Type} [DecidableEq α]
    (cli : Client α) (keyOf : α → Except Err ObjectKey) (obj : α)
    (f : α → Except Err α) :
    (∀ e, keyOf obj = .error e →
       GuaranteedUpdate cli keyOf obj f = (some e, 0, 0))
  ∧ (∀ k e, keyOf obj = .ok k → cli.get 0 = .error e →
     IsConflict e = false →
       GuaranteedUpdate cli keyOf obj f = (some e, 1, 0))
  ∧ (∀ k a e, keyOf obj = .ok k → cli.get 0 = .ok a → f a = .error e →
     IsConflict e = false →
       GuaranteedUpdate cli keyOf obj f = (some e, 1, 0)) := by
  refine ⟨?_, ?_, ?_⟩
  · intro e hk
    unfold GuaranteedUpdate
    rw [hk]
  · intro k e hk hg hnc
    unfold GuaranteedUpdate
    rw [hk]
    show retryOnConflict cli f (4 + 1) none 0 0 = (some e, 1, 0)
    rw [retryOnConflict_step_abort cli f
      (attemptOnce_get_error cli f hg) hnc]
  · intro k a e hk hg hf hnc
    unfold GuaranteedUpdate
    rw [hk]
    show retryOnConflict cli f (4 + 1) none 0 0 = (some e, 1, 0)
    rw [retryOnConflict_step_abort cli f
      (attemptOnce_mutate_error cli f hg hf) hnc]

/-- Witness for the amended C3: key-derivation failure, ordinary fetch
failure, and ordinary mutate failure at concrete stores. -/
theorem guaranteedUpdate_nonconflict_aborts_witness :
    GuaranteedUpdate cliNoop badKeyOf 0 incFn
        = (some (Err.other "no accessor"), 0, 0)
    ∧ GuaranteedUpdate cliGetBoom natKeyOf 0 incFn
        = (some (Err.other "boom"), 1, 0)
    ∧ GuaranteedUpdate cliNoop natKeyOf 0 mutateBoom
        = (some (Err.other "mboom"), 1, 0) :=
  ⟨(guaranteedUpdate_nonconflict_aborts cliNoop badKeyOf 0 incFn).1
      (Err.other "no accessor") rfl,
   (guaranteedUpdate_nonconflict_aborts cliGetBoom natKeyOf 0 incFn).2.1
      ⟨"ns", "obj"⟩ (Err.other "boom") rfl rfl rfl,
   (guaranteedUpdate_nonconflict_aborts cliNoop natKeyOf 0 mutateBoom).2.2
      ⟨"ns", "obj"⟩ 0 (Err.other "mboom") rfl rfl rfl rfl⟩

theorem handleEvent_watchForObject (e : Event) :
    handleEvent WatchForObjectHandler e = watchForObjectEnqueue e.current := by
  cases e <;> rfl

theorem handleEvent_watchForController (fn : GetControllerFn)
    (m : Option (List (String × String))) (e : Event) :
    handleEvent (WatchForControllerHandler fn m) e
      = watchForControllerEnqueue fn m e.current := by
  cases e <;> rfl

/-- C4: in filtered indirect mode, an event whose object's labels are not
a superset of the filter enqueues zero keys; and whenever a key is
enqueued, the filter matched and the key is the resolved controller
object's key (derived from the fetched controller, not from the child). -/
theorem watchForController_label_filter (fn : GetControllerFn)
    (f : List (String × String)) (e : Event) (meta : ObjectMeta)
    (hcur : e.current = .object meta) :
    (IsSubMapOf f meta.labels = false →
       handleEvent (WatchForControllerHandler fn (some f)) e = ([], []))
  ∧ (∀ k, k ∈ (handleEvent (WatchForControllerHandler fn (some f)) e).1 →
       IsSubMapOf f meta.labels = true ∧
       ∃ ref gv c, GetControllerOf meta = some ref ∧
         ParseGroupVersion ref.apiVersion = .ok gv ∧
         fn meta.ns ref.name = .ok c ∧
         ref.kind = c.gvk.kind ∧ gv.group = c.gvk.group ∧
         DeletionHandlingMetaNamespaceKeyFunc (.object c.meta) = .ok k) := by
  rw [handleEvent_watchForController, hcur]
  constructor
  · intro hf
    simp [watchForControllerEnqueue, Payload.accessor, hf]
  · intro k hk
    by_cases hf : IsSubMapOf f meta.labels
    · refine ⟨hf, ?_⟩
      simp only [watchForControllerEnqueue, Payload.accessor, hf,
        Bool.not_true, Bool.false_eq_true, if_false] at hk
      rw [resolveAndEnqueue] at hk
      cases hco : GetControllerOf meta with
      | none => simp only [hco] at hk; simp at hk
      | some ref =>
        simp only [hco] at hk
        cases hpv : ParseGroupVersion ref.apiVersion with
        | error err => simp only [hpv] at hk; simp at hk
        | ok gv =>
          simp only [hpv] at hk
          cases hfn : fn meta.ns ref.name with
          | error err =>
            simp only [hfn] at hk
            cases hnfd : IsNotFound err <;> simp [hnfd] at hk
          | ok c =>
            simp only [hfn] at hk
            by_cases hmatch : ref.kind = c.gvk.kind ∧ gv.group = c.gvk.group
            · rw [if_pos hmatch] at hk
              cases hkey : DeletionHandlingMetaNamespaceKeyFunc
                  (.object c.meta) with
              | error err => simp only [hkey] at hk; simp at hk
              | ok key =>
                simp only [hkey] at hk
                simp at hk
                exact ⟨ref, gv, c, rfl, hpv, hfn, hmatch.1, hmatch.2,
                  by rw [hkey, hk]⟩
            · rw [if_neg hmatch] at hk; simp at hk
    · simp only [watchForControllerEnqueue, Payload.accessor,
        Bool.not_eq_true] at hk
      rw [if_pos] at hk
      · simp at hk
      · simp [hf]

/-- Witness for C4: a child missing the required label enqueues nothing;
a child with a strict superset of the filter enqueues the parent
TikvCluster's key. -/
theorem watchForController_label_filter_witness :
    handleEvent (WatchForControllerHandler fnTikv (some fltr))
        (.add (.object metaNoLabel)) = ([], [])
    ∧ (IsSubMapOf fltr metaChild.labels = true ∧
       ∃ ref gv c, GetControllerOf metaChild = some ref ∧
         ParseGroupVersion ref.apiVersion = .ok gv ∧
         fnTikv metaChild.ns ref.name = .ok c ∧
         ref.kind = c.gvk.kind ∧ gv.group = c.gvk.group ∧
         DeletionHandlingMetaNamespaceKeyFunc (.object c.meta)
           = .ok "ns/parent") :=
  ⟨(watchForController_label_filter fnTikv fltr (.add (.object metaNoLabel))
      metaNoLabel rfl).1 (by decide),
   (watchForController_label_filter fnTikv fltr (.update (.object metaChildAlt)
      (.object metaChild)) metaChild rfl).2 "ns/parent" (by decide)⟩

/-- C5: when the controlling reference resolves to a fetched candidate
whose actual kind or group differs from the reference's kind or parsed
group, the outcome is none: no key enqueued and no error reported — even
if the candidate's name matches the reference's name. -/
theorem watchForController_kind_group_mismatch_none (fn : GetControllerFn)
    (m : Option (List (String × String))) (e : Event) (meta : ObjectMeta)
    (ref : OwnerReference) (gv : GroupVersion) (c : RuntimeObject)
    (hcur : e.current = .object meta)
    (hfilter : (match m with
                | some f => IsSubMapOf f meta.labels
                | none => true) = true)
    (href : GetControllerOf meta = some ref)
    (hgv : ParseGroupVersion ref.apiVersion = .ok gv)
    (hfn : fn meta.ns ref.name = .ok c)
    (hmm : ¬(ref.kind = c.gvk.kind ∧ gv.group = c.gvk.group)) :
    handleEvent (WatchForControllerHandler fn m) e = ([], []) := by
  rw [handleEvent_watchForController, hcur]
  have hres : resolveAndEnqueue fn meta = ([], []) := by
    rw [resolveAndEnqueue]
    simp only [href, hgv, hfn]
    rw [if_neg hmm]
  cases m with
  | none => simpa [watchForControllerEnqueue, Payload.accessor] using hres
  | some f =>
    simp only [Option.some.injEq] at hfilter
    simpa [watchForControllerEnqueue, Payload.accessor, hfilter] using hres

/-- Witness for C5: the lookup returns a StatefulSet whose name matches
the reference's name `parent`, but the kind differs, so nothing is
enqueued and nothing is reported. -/
theorem watchForController_kind_group_mismatch_none_witness :
    handleEvent (WatchForControllerHandler fnWrongKind none)
        (.add (.object metaChild)) = ([], [])
    ∧ tikvRef.name = metaParent.name :=
  ⟨watchForController_kind_group_mismatch_none fnWrongKind none
      (.add (.object metaChild)) metaChild tikvRef
      ⟨"tikv.org", "v1alpha1"⟩ ⟨⟨"apps", "v1", "StatefulSet"⟩, metaParent⟩
      rfl rfl rfl rfl rfl (by decide),
   rfl⟩

/-- C6: in direct mode, each add/update/delete event leads to exactly
one enqueue of the event object's own key when the key derives; a delete
delivered as a tombstone enqueues the cached last-known key; and a
key-derivation failure is reported through the error handler with the
event dropped (no enqueue), the handler returning normally in all
cases. -/
theorem watchForObject_direct_enqueue (e : Event) :
    (∀ k, DeletionHandlingMetaNamespaceKeyFunc e.current = .ok k →
       handleEvent WatchForObjectHandler e = ([k], []))
  ∧ (∀ err, DeletionHandlingMetaNamespaceKeyFunc e.current = .error err →
       handleEvent WatchForObjectHandler e
         = ([], ["could not get key for object"]))
  ∧ (∀ ck, e = .delete (.deletedFinalStateUnknown ck) →
       handleEvent WatchForObjectHandler e = ([ck], [])) := by
  refine ⟨?_, ?_, ?_⟩
  · intro k hk
    rw [handleEvent_watchForObject, watchForObjectEnqueue, hk]
  · intro err herr
    rw [handleEvent_watchForObject, watchForObjectEnqueue, herr]
  · intro ck hek
    subst hek
    rfl

/-- Witness for C6: an add of a live object, an update whose current
payload has no metadata, and a tombstone delete. -/
theorem watchForObject_direct_enqueue_witness :
    handleEvent WatchForObjectHandler (.add (.object metaChild))
        = (["ns/child"], [])
    ∧ handleEvent WatchForObjectHandler
        (.update (.nonObject "old") (.nonObject "bad"))
        = ([], ["could not get key for object"])
    ∧ handleEvent WatchForObjectHandler
        (.delete (.deletedFinalStateUnknown "cached/key"))
        = (["cached/key"], []) :=
  ⟨(watchForObject_direct_enqueue (.add (.object metaChild))).1
      "ns/child" rfl,
   (watchForObject_direct_enqueue
      (.update (.nonObject "old") (.nonObject "bad"))).2.1
      (.other "object has no meta") rfl,
   (watchForObject_direct_enqueue
      (.delete (.deletedFinalStateUnknown "cached/key"))).2.2
      "cached/key" rfl⟩

/-- C7: `RequeueErrorf` values satisfy `IsRequeueError` and not
`IsIgnoreError`; `IgnoreErrorf` values the reverse; a plain
`fmt.Errorf` value satisfies neither; and in each case `Error()` returns
the formatted message. -/
theorem errorClassifier_predicates (s : String) :
    IsRequeueError (RequeueErrorf s) = true
  ∧ IsIgnoreError (RequeueErrorf s) = false
  ∧ IsIgnoreError (IgnoreErrorf s) = true
  ∧ IsRequeueError (IgnoreErrorf s) = false
  ∧ IsRequeueError (Errorf s) = false
  ∧ IsIgnoreError (Errorf s) = false
  ∧ (RequeueErrorf s).Error = s
  ∧ (IgnoreErrorf s).Error = s
  ∧ (Errorf s).Error = s :=
  ⟨rfl, rfl, rfl, rfl, rfl, rfl, rfl, rfl, rfl⟩

/-- C8: in both modes the handling of an update event is exactly the
single-object enqueue of the current (post-update) object; the old
object is ignored, so the result is unchanged when the old object is
replaced by any other, and there is no second enqueue derived from the
old state. -/
theorem update_event_uses_current_only (old old' cur : Payload)
    (fn : GetControllerFn) (m : Option (List (String × String))) :
    handleEvent WatchForObjectHandler (.update old cur)
        = watchForObjectEnqueue cur
  ∧ handleEvent WatchForObjectHandler (.update old cur)
        = handleEvent WatchForObjectHandler (.update old' cur)
  ∧ handleEvent (WatchForControllerHandler fn m) (.update old cur)
        = watchForControllerEnqueue fn m cur
  ∧ handleEvent (WatchForControllerHandler fn m) (.update old cur)
        = handleEvent (WatchForControllerHandler fn m) (.update old' cur) :=
  ⟨rfl, rfl, rfl, rfl⟩

/-- C9: the key derivation used by both routers is deterministic and
depends only on the (namespace, name) pair: two objects agreeing on
namespace and name get the same key whatever their labels, owner
references or other fields, and hence any two events carrying such
objects yield the same key. -/
theorem keyFunc_identity_only (m1 m2 : ObjectMeta)
    (hns : m1.ns = m2.ns) (hname : m1.name = m2.name) :
    DeletionHandlingMetaNamespaceKeyFunc (.object m1)
        = DeletionHandlingMetaNamespaceKeyFunc (.object m2)
  ∧ ∀ e1 e2 : Event, e1.current = .object m1 → e2.current = .object m2 →
      DeletionHandlingMetaNamespaceKeyFunc e1.current
        = DeletionHandlingMetaNamespaceKeyFunc e2.current := by
  have h : DeletionHandlingMetaNamespaceKeyFunc (.object m1)
      = DeletionHandlingMetaNamespaceKeyFunc (.object m2) := by
    simp only [DeletionHandlingMetaNamespaceKeyFunc, MetaNamespaceKeyFunc,
      Payload.accessor, hns, hname]
  exact ⟨h, fun e1 e2 h1 h2 => by rw [h1, h2]; exact h⟩

/-- Witness for C9: same identity, all other fields different, one
carried by an add event and one by a delete event. -/
theorem keyFunc_identity_only_witness :
    DeletionHandlingMetaNamespaceKeyFunc (.object metaChild)
        = DeletionHandlingMetaNamespaceKeyFunc (.object metaChildAlt)
    ∧ DeletionHandlingMetaNamespaceKeyFunc
          (Event.current (.add (.object metaChild)))
        = DeletionHandlingMetaNamespaceKeyFunc
          (Event.current (.delete (.object metaChildAlt))) :=
  have h := keyFunc_identity_only metaChild metaChildAlt rfl rfl
  ⟨h.1, h.2 (.add (.object metaChild)) (.delete (.object metaChildAlt))
      rfl rfl⟩

/-- C10: an event whose payload fails the `metav1.Object` assertion is
reported through the side-channel error handler and dropped without any
enqueue; the handler returns normally and the outcome does not depend on
the lookup function, so owner resolution is never reached. -/
theorem watchForController_non_object_safe (fn : GetControllerFn)
    (m : Option (List (String × String))) (e : Event)
    (h : e.current.accessor = none) :
    handleEvent (WatchForControllerHandler fn m) e
        = ([], ["not a runtime.Object, cannot get controller from it"])
  ∧ (handleEvent (WatchForControllerHandler fn m) e).1 = []
  ∧ ∀ fn' : GetControllerFn,
      handleEvent (WatchForControllerHandler fn m) e
        = handleEvent (WatchForControllerHandler fn' m) e := by
  have key : ∀ g : GetControllerFn,
      handleEvent (WatchForControllerHandler g m) e
        = ([], ["not a runtime.Object, cannot get controller from it"]) := by
    intro g
    rw [handleEvent_watchForController, watchForControllerEnqueue, h]
  exact ⟨key fn, by rw [key fn], fun fn' => by rw [key fn, key fn']⟩

/-- Witness for C10: an update event whose current payload is not an
API object. -/
theorem watchForController_non_object_safe_witness :
    handleEvent (WatchForControllerHandler fnTikv none)
        (.update (.object metaChild) (.nonObject "junk"))
        = ([], ["not a runtime.Object, cannot get controller from it"])
    ∧ handleEvent (WatchForControllerHandler fnTikv none)
        (.update (.object metaChild) (.nonObject "junk"))
        = handleEvent (WatchForControllerHandler fnWrongKind none)
        (.update (.object metaChild) (.nonObject "junk")) :=
  have h := watchForController_non_object_safe fnTikv none
    (.update (.object metaChild) (.nonObject "junk")) rfl
  ⟨h.1, h.2.2 fnWrongKind⟩

end TikvOperator
